import Mathlib

/-!
Verification of the `ate-dme_obst` Python SDK (`src/client.py`,
`src/exceptions.py`): a thin wrapper (`ObjectsClient`) around an external
S3-compatible storage collaborator.  The collaborator (the boto3 client) is
modelled abstractly as a record of response functions (`S3Collab`); each
wrapper operation is embedded as a pure Lean function that additionally
returns the ordered trace of requests it issued to the collaborator, so
that theorems can speak about which calls were made and with what arguments.

Python exceptions are modelled with `Except` over an explicit error sum
(`PyError`): the `ObjectsError` hierarchy is a tagged variant
(`ObjectsErrorKind`), `FileNotFoundError` and `KeyError` are separate
constructors outside that hierarchy, mirroring the Python class hierarchy.
-/

namespace AteDmeObst

/-- The `Error` sub-dictionary of a botocore `ClientError` response:
`Code` and `Message` fields, each possibly absent. -/
structure ClientErrorField where
  code : Option String
  message : Option String
  deriving Repr, DecidableEq

/-- A botocore `ClientError` as seen by the wrapper: `error.response` may or
may not carry an `"Error"` entry (`response.get("Error", {})`). -/
structure ClientError where
  error : Option ClientErrorField
  deriving Repr, DecidableEq

/-- Model of `ObjectsConfig` from `src/client.py`: credentials, bucket, endpoint,
default presigned-URL expiry, and the free-form extra boto config map. -/
structure ObjectsConfig where
  access_key : String
  secret_key : String
  bucket : String
  endpoint : String := "https://s3.nevaobjects.id"
  default_expiry : Int := 86400
  extra_boto_config : List (String × String) := []
  deriving Repr, DecidableEq

/-- Model of `ObjectInfo` from `src/client.py`: metadata for one object. -/
structure ObjectInfo where
  key : String
  size : Int
  last_modified : String
  etag : String := ""
  deriving Repr, DecidableEq

/-- Model of `ObjectsClient._parse_client_error`:
`resp = error.response.get("Error", {})`;
returns `(resp.get("Code", "Unknown"), resp.get("Message", "(no message)"))`. -/
def parse_client_error (e : ClientError) : String × String :=
  let resp := e.error.getD ⟨none, none⟩
  (resp.code.getD "Unknown", resp.message.getD "(no message)")

/-- Model of `os.path.basename` on POSIX: the portion of the path after the last
slash (`p[p.rfind('/') + 1 :]`). -/
def basename (p : String) : String :=
  ((p.splitOn "/").getLast?).getD p

/-- Python `a or b` for `a : Optional[str]`: `b` when `a` is `None` or the
empty string (both falsy), else the string in `a`. -/
def pyOrStr (a : Option String) (b : String) : String :=
  match a with
  | none => b
  | some s => if s = "" then b else s

/-- Python `str.strip('"')`: remove every leading and trailing `"`. -/
def stripQuotes (s : String) : String :=
  let l := s.toList.dropWhile (· = '"')
  String.mk ((l.reverse.dropWhile (· = '"')).reverse)

/-- One entry of the `Contents` list of a `list_objects_v2` response:
`Key`, `Size`, `LastModified` are accessed by direct indexing, `ETag` via
`obj.get("ETag", "")`. -/
structure RawObject where
  Key : String
  Size : Int
  LastModified : String
  ETag : Option String
  deriving Repr, DecidableEq

/-- A `list_objects_v2` response: `response.get("Contents", [])` means the
`Contents` field may be absent. -/
structure ListResponse where
  Contents : Option (List RawObject)
  deriving Repr, DecidableEq

/-- A request issued to the storage collaborator, with the arguments the
wrapper passes (`src/client.py` passes `Bucket=self.config.bucket` on every
call). -/
inductive S3Req where
  | upload_file (Filename Bucket Key : String) (ExtraArgs : List (String × String))
  | list_objects_v2 (Bucket Pfx : String) (MaxKeys : Int)
  | generate_presigned_url (Method Bucket Key : String) (ExpiresIn : Int)
  | delete_object (Bucket Key : String)
  | head_object (Bucket Key : String)
  deriving Repr, DecidableEq

/-- The bucket argument carried by a collaborator request. -/
def S3Req.bucket : S3Req → String
  | .upload_file _ b _ _ => b
  | .list_objects_v2 b _ _ => b
  | .generate_presigned_url _ b _ _ => b
  | .delete_object b _ => b
  | .head_object b _ => b

/-- The external S3-compatible collaborator (`self._s3`), modelled as the
responses it gives to each kind of request; arguments are in the order the
wrapper passes them. -/
structure S3Collab where
  upload_file : String → String → String → List (String × String) → Except ClientError Unit
  list_objects_v2 : String → String → Int → Except ClientError ListResponse
  generate_presigned_url : String → String → String → Int → Except ClientError String
  delete_object : String → String → Except ClientError Unit
  head_object : String → String → Except ClientError Unit

/-- Which class of the `src/exceptions.py` hierarchy an `ObjectsError` value
belongs to: the base class itself or one of its three subclasses. -/
inductive ObjectsErrorKind where
  | base
  | uploadError
  | downloadError
  | listError
  deriving Repr, DecidableEq

/-- A raised Python exception.  `objectsError` covers the `ObjectsError`
hierarchy (message, `code` attribute, wrapped original `ClientError`);
`fileNotFound` is Python's builtin `FileNotFoundError` and `keyError` the
builtin `KeyError`, both outside the `ObjectsError` hierarchy. -/
inductive PyError where
  | fileNotFound (message : String)
  | keyError (key : String)
  | objectsError (kind : ObjectsErrorKind) (message : String) (code : String)
      (original : ClientError)
  deriving Repr, DecidableEq

/-- Model of `ObjectsClient.upload`.  `fs` models `os.path.isfile`.  Returns the
wrapper's result together with the trace of collaborator requests issued. -/
def upload (cfg : ObjectsConfig) (fs : String → Bool) (s3 : S3Collab)
    (local_path : String) (object_key : Option String := none)
    (extra_args : Option (List (String × String)) := none) :
    Except PyError String × List S3Req :=
  if ¬ fs local_path then
    (.error (.fileNotFound ("File not found: " ++ local_path)), [])
  else
    let key := pyOrStr object_key (basename local_path)
    let ea := extra_args.getD []
    match s3.upload_file local_path cfg.bucket key ea with
    | .ok _ => (.ok key, [.upload_file local_path cfg.bucket key ea])
    | .error exc =>
        let (code, msg) := parse_client_error exc
        (.error (.objectsError .uploadError
            ("Upload failed for '" ++ local_path ++ "': " ++ msg) code exc),
          [.upload_file local_path cfg.bucket key ea])

/-- Model of `ObjectsClient.list`: forwards bucket, prefix and `MaxKeys` to the
collaborator and converts each `Contents` entry into an `ObjectInfo`. -/
def list (cfg : ObjectsConfig) (s3 : S3Collab)
    (pfx : String := "") (max_keys : Int := 1000) :
    Except PyError (List ObjectInfo) × List S3Req :=
  let req : S3Req := .list_objects_v2 cfg.bucket pfx max_keys
  match s3.list_objects_v2 cfg.bucket pfx max_keys with
  | .error exc =>
      let (code, msg) := parse_client_error exc
      (.error (.objectsError .listError ("Failed to list objects: " ++ msg) code exc),
        [req])
  | .ok response =>
      let contents := response.Contents.getD []
      (.ok (contents.map fun o =>
          { key := o.Key
            size := o.Size
            last_modified := o.LastModified
            etag := stripQuotes (o.ETag.getD "") }),
        [req])

/-- Model of `ObjectsClient.list_keys`: `[obj.key for obj in self.list(prefix=prefix)]`
(so `max_keys` keeps its default `1000`). -/
def list_keys (cfg : ObjectsConfig) (s3 : S3Collab) (pfx : String := "") :
    Except PyError (List String) × List S3Req :=
  let (r, tr) := list cfg s3 pfx 1000
  (r.map (·.map ObjectInfo.key), tr)

/-- Model of `ObjectsClient.get_download_url`:
`expiry = expires_in if expires_in is not None else self.config.default_expiry`,
then `generate_presigned_url("get_object", Params={...}, ExpiresIn=expiry)`. -/
def get_download_url (cfg : ObjectsConfig) (s3 : S3Collab)
    (object_key : String) (expires_in : Option Int := none) :
    Except PyError String × List S3Req :=
  let expiry := match expires_in with
    | some v => v
    | none => cfg.default_expiry
  let req : S3Req := .generate_presigned_url "get_object" cfg.bucket object_key expiry
  match s3.generate_presigned_url "get_object" cfg.bucket object_key expiry with
  | .ok url => (.ok url, [req])
  | .error exc =>
      let (code, msg) := parse_client_error exc
      (.error (.objectsError .downloadError
          ("Failed to generate URL for '" ++ object_key ++ "': " ++ msg) code exc),
        [req])

/-- Model of `ObjectsClient.delete`: raises the base `ObjectsError` (not a subclass)
on collaborator failure. -/
def delete (cfg : ObjectsConfig) (s3 : S3Collab) (object_key : String) :
    Except PyError Unit × List S3Req :=
  let req : S3Req := .delete_object cfg.bucket object_key
  match s3.delete_object cfg.bucket object_key with
  | .ok _ => (.ok (), [req])
  | .error exc =>
      let (code, msg) := parse_client_error exc
      (.error (.objectsError .base
          ("Failed to delete '" ++ object_key ++ "': " ++ msg) code exc),
        [req])

/-- Model of `ObjectsClient.object_exists`.  The not-found test reads
`exc.response["Error"]["Code"]` by direct indexing: a missing `"Error"` or
`"Code"` entry raises `KeyError` instead of reaching the translation. -/
def object_exists (cfg : ObjectsConfig) (s3 : S3Collab) (object_key : String) :
    Except PyError Bool × List S3Req :=
  let req : S3Req := .head_object cfg.bucket object_key
  match s3.head_object cfg.bucket object_key with
  | .ok _ => (.ok true, [req])
  | .error exc =>
      match exc.error with
      | none => (.error (.keyError "Error"), [req])
      | some ef =>
          match ef.code with
          | none => (.error (.keyError "Code"), [req])
          | some c =>
              if c = "404" ∨ c = "NoSuchKey" then
                (.ok false, [req])
              else
                let (code, msg) := parse_client_error exc
                (.error (.objectsError .base
                    ("Failed to check existence of '" ++ object_key ++ "': " ++ msg)
                    code exc),
                  [req])

/-- The client façade: owns one `ObjectsConfig` (`self.config`). -/
structure ObjectsClient where
  config : ObjectsConfig
  deriving Repr, DecidableEq

/-- One invocation of a public `ObjectsClient` operation with its arguments. -/
inductive ApiCall where
  | upload (local_path : String) (object_key : Option String)
      (extra_args : Option (List (String × String)))
  | list (pfx : String) (max_keys : Int)
  | list_keys (pfx : String)
  | get_download_url (object_key : String) (expires_in : Option Int)
  | delete (object_key : String)
  | object_exists (object_key : String)

/-- The result of one public operation (one constructor per return type). -/
inductive CallResult where
  | str (r : Except PyError String)
  | objs (r : Except PyError (List ObjectInfo))
  | keys (r : Except PyError (List String))
  | unit (r : Except PyError Unit)
  | bool (r : Except PyError Bool)

/-- Dispatch one public operation on a client.  Returns the result, the
collaborator request trace, and the post-state of the client: no method body
in `src/client.py` assigns to `self.config` (or any of its fields), so the
post-state is the receiver unchanged. -/
def runCall (client : ObjectsClient) (fs : String → Bool) (s3 : S3Collab) :
    ApiCall → CallResult × List S3Req × ObjectsClient
  | .upload lp ok ea =>
      (.str (upload client.config fs s3 lp ok ea).1,
        (upload client.config fs s3 lp ok ea).2, client)
  | .list pfx mxk =>
      (.objs (list client.config s3 pfx mxk).1,
        (list client.config s3 pfx mxk).2, client)
  | .list_keys pfx =>
      (.keys (list_keys client.config s3 pfx).1,
        (list_keys client.config s3 pfx).2, client)
  | .get_download_url k ei =>
      (.str (get_download_url client.config s3 k ei).1,
        (get_download_url client.config s3 k ei).2, client)
  | .delete k =>
      (.unit (delete client.config s3 k).1,
        (delete client.config s3 k).2, client)
  | .object_exists k =>
      (.bool (object_exists client.config s3 k).1,
        (object_exists client.config s3 k).2, client)

/-! ## Concrete instances used by the witnesses -/

/-- A sample configuration. -/
def cfgW : ObjectsConfig :=
  { access_key := "AK", secret_key := "SK", bucket := "photos" }

/-- A sample filesystem on which only `./a.jpg` is a regular file. -/
def fsW : String → Bool := fun p => p == "./a.jpg"

/-- A sample `list_objects_v2` response with two objects under prefix `x/`. -/
def respW : ListResponse :=
  ⟨some [⟨"x/a.txt", 3, "2024-01-01", some "\"e1\""⟩,
         ⟨"x/b.txt", 4, "2024-01-02", none⟩]⟩

/-- A collaborator on which every operation succeeds. -/
def okCollab : S3Collab :=
  { upload_file := fun _ _ _ _ => .ok ()
    list_objects_v2 := fun _ _ _ => .ok respW
    generate_presigned_url := fun _ _ _ _ => .ok "https://example/url"
    delete_object := fun _ _ => .ok ()
    head_object := fun _ _ => .ok () }

/-- A `ClientError` coded `AccessDenied`. -/
def excAD : ClientError := ⟨some ⟨some "AccessDenied", some "denied"⟩⟩

/-- A `ClientError` coded `404` (one of the two not-found codes). -/
def excNF : ClientError := ⟨some ⟨some "404", none⟩⟩

/-- A `ClientError` whose response carries no `Error` entry at all. -/
def excBare : ClientError := ⟨none⟩

/-- A collaborator on which every operation fails with the given error. -/
def errCollab (e : ClientError) : S3Collab :=
  { upload_file := fun _ _ _ _ => .error e
    list_objects_v2 := fun _ _ _ => .error e
    generate_presigned_url := fun _ _ _ _ => .error e
    delete_object := fun _ _ => .error e
    head_object := fun _ _ => .error e }

/-! ## Claim theorems -/

/-- C1: for every local path that is a regular file, a successful `upload`
returns exactly the key it passed to the collaborator's `upload_file` call,
and when `object_key` is omitted (`None`) that key is the base name of
`local_path`. -/
theorem upload_returns_key_used (cfg : ObjectsConfig) (fs : String → Bool)
    (s3 : S3Collab) (local_path : String) (object_key : Option String)
    (extra_args : Option (List (String × String)))
    (hfile : fs local_path = true)
    (hok : s3.upload_file local_path cfg.bucket
      (pyOrStr object_key (basename local_path)) (extra_args.getD []) = .ok ()) :
    ∃ k, (upload cfg fs s3 local_path object_key extra_args).1 = .ok k ∧
      (upload cfg fs s3 local_path object_key extra_args).2 =
        [.upload_file local_path cfg.bucket k (extra_args.getD [])] ∧
      (object_key = none → k = basename local_path) := by
  refine ⟨pyOrStr object_key (basename local_path), ?_, ?_, ?_⟩
  · simp [upload, hfile, hok]
  · simp [upload, hfile, hok]
  · intro h
    subst h
    rfl

/-- Witness for C1: uploading `./a.jpg` with no explicit key on a succeeding
collaborator returns a key, the same key the collaborator was called with,
equal to `a.jpg`. -/
theorem upload_returns_key_used_witness :
    fsW "./a.jpg" = true ∧
    okCollab.upload_file "./a.jpg" cfgW.bucket
      (pyOrStr none (basename "./a.jpg")) ((none : Option (List (String × String))).getD []) = .ok () ∧
    ∃ k, (upload cfgW fsW okCollab "./a.jpg" none none).1 = .ok k ∧
      (upload cfgW fsW okCollab "./a.jpg" none none).2 =
        [.upload_file "./a.jpg" cfgW.bucket k ((none : Option (List (String × String))).getD [])] ∧
      ((none : Option String) = none → k = basename "./a.jpg") :=
  ⟨by decide, rfl,
    upload_returns_key_used cfgW fsW okCollab "./a.jpg" none none (by decide) rfl⟩

/-- C3: when `local_path` is not a regular file, `upload` fails with
`FileNotFoundError` (a builtin exception outside the `ObjectsError`
hierarchy) and issues no collaborator request at all. -/
theorem upload_missing_file_no_contact (cfg : ObjectsConfig) (fs : String → Bool)
    (s3 : S3Collab) (local_path : String) (object_key : Option String)
    (extra_args : Option (List (String × String)))
    (hfile : fs local_path = false) :
    (upload cfg fs s3 local_path object_key extra_args).1 =
      .error (.fileNotFound ("File not found: " ++ local_path)) ∧
    (upload cfg fs s3 local_path object_key extra_args).2 = [] := by
  constructor <;> simp [upload, hfile]

/-- Witness for C3: `./missing.bin` is not a file under `fsW`, so `upload`
fails with `FileNotFoundError` and the collaborator trace is empty. -/
theorem upload_missing_file_no_contact_witness :
    fsW "./missing.bin" = false ∧
    (upload cfgW fsW okCollab "./missing.bin" none none).1 =
      .error (.fileNotFound ("File not found: " ++ "./missing.bin")) ∧
    (upload cfgW fsW okCollab "./missing.bin" none none).2 = [] :=
  ⟨by decide,
    (upload_missing_file_no_contact cfgW fsW okCollab "./missing.bin" none none (by decide)).1,
    (upload_missing_file_no_contact cfgW fsW okCollab "./missing.bin" none none (by decide)).2⟩

/-- C9: an explicit empty-string `object_key` is falsy in Python, so
`object_key or os.path.basename(local_path)` falls back to the base name:
the collaborator is called with the base name as key (never the empty
string), and on success that is the returned key. -/
theorem upload_empty_key_uses_basename (cfg : ObjectsConfig) (fs : String → Bool)
    (s3 : S3Collab) (local_path : String)
    (extra_args : Option (List (String × String)))
    (hfile : fs local_path = true) :
    (upload cfg fs s3 local_path (some "") extra_args).2 =
      [.upload_file local_path cfg.bucket (basename local_path) (extra_args.getD [])] ∧
    (s3.upload_file local_path cfg.bucket (basename local_path)
        (extra_args.getD []) = .ok () →
      (upload cfg fs s3 local_path (some "") extra_args).1 = .ok (basename local_path)) := by
  constructor
  · unfold upload
    cases h : s3.upload_file local_path cfg.bucket
        (pyOrStr (some "") (basename local_path)) (extra_args.getD []) <;>
      simp_all [pyOrStr, hfile]
  · intro hok
    simp [upload, hfile, pyOrStr, hok]

/-- Witness for C9: uploading `./a.jpg` with `object_key = ""` calls the
collaborator with key `a.jpg` and returns `a.jpg`. -/
theorem upload_empty_key_uses_basename_witness :
    fsW "./a.jpg" = true ∧
    (upload cfgW fsW okCollab "./a.jpg" (some "") none).2 =
      [.upload_file "./a.jpg" cfgW.bucket (basename "./a.jpg")
        ((none : Option (List (String × String))).getD [])] ∧
    (upload cfgW fsW okCollab "./a.jpg" (some "") none).1 = .ok (basename "./a.jpg") :=
  ⟨by decide,
    (upload_empty_key_uses_basename cfgW fsW okCollab "./a.jpg" none (by decide)).1,
    (upload_empty_key_uses_basename cfgW fsW okCollab "./a.jpg" none (by decide)).2 rfl⟩

/-- C4: `list_keys(prefix)` is exactly `list(prefix)` projected onto the
`key` field, in the same order (and it propagates `list`'s error unchanged). -/
theorem list_keys_is_key_projection (cfg : ObjectsConfig) (s3 : S3Collab)
    (pfx : String) :
    (list_keys cfg s3 pfx).1 =
      (list cfg s3 pfx 1000).1.map (List.map ObjectInfo.key) := by
  rfl

/-- C5: `get_download_url` passes `config.default_expiry` to the
collaborator's presigned-URL call when `expires_in` is omitted, and passes an
explicit `expires_in` value verbatim. -/
theorem get_download_url_expiry_forwarded (cfg : ObjectsConfig) (s3 : S3Collab)
    (object_key : String) :
    (get_download_url cfg s3 object_key none).2 =
      [.generate_presigned_url "get_object" cfg.bucket object_key cfg.default_expiry] ∧
    ∀ v : Int, (get_download_url cfg s3 object_key (some v)).2 =
      [.generate_presigned_url "get_object" cfg.bucket object_key v] := by
  constructor
  · unfold get_download_url
    cases h : s3.generate_presigned_url "get_object" cfg.bucket object_key
        cfg.default_expiry <;> simp [h]
  · intro v
    unfold get_download_url
    cases h : s3.generate_presigned_url "get_object" cfg.bucket object_key v <;>
      simp [h]

/-- Python `str.startswith(pfx)`: the characters of `pfx` are a prefix of the
characters of the string. -/
def strStartsWith (pfx s : String) : Bool :=
  pfx.data.isPrefixOf s.data

/-- C7: when the collaborator's listing honours its contract (at most
`MaxKeys` entries, every key extending the requested prefix), `list` returns
a successful sequence with at most `max_keys` entries, all of whose keys
start with the prefix; an empty listing yields the empty sequence, not an
error. -/
theorem list_bounded_and_prefixed (cfg : ObjectsConfig) (s3 : S3Collab)
    (pfx : String) (max_keys : Int) (resp : ListResponse)
    (hok : s3.list_objects_v2 cfg.bucket pfx max_keys = .ok resp)
    (hlen : ((resp.Contents.getD []).length : Int) ≤ max_keys)
    (hpfx : ∀ o ∈ resp.Contents.getD [], strStartsWith pfx o.Key = true) :
    ∃ l, (list cfg s3 pfx max_keys).1 = .ok l ∧
      ((l.length : Int) ≤ max_keys) ∧
      (∀ i ∈ l, strStartsWith pfx i.key = true) ∧
      (resp.Contents.getD [] = [] → l = []) := by
  refine ⟨(resp.Contents.getD []).map fun o =>
      { key := o.Key, size := o.Size, last_modified := o.LastModified,
        etag := stripQuotes (o.ETag.getD "") }, ?_, ?_, ?_, ?_⟩
  · simp [list, hok]
  · simpa using hlen
  · intro i hi
    rcases List.mem_map.1 hi with ⟨o, ho, rfl⟩
    exact hpfx o ho
  · intro h
    simp [h]

/-- Witness for C7: listing prefix `x/` against a collaborator returning the
two-object response `respW` yields a sequence of length at most 1000 whose
keys all start with `x/`. -/
theorem list_bounded_and_prefixed_witness :
    okCollab.list_objects_v2 cfgW.bucket "x/" 1000 = .ok respW ∧
    ((respW.Contents.getD []).length : Int) ≤ 1000 ∧
    ∃ l, (list cfgW okCollab "x/" 1000).1 = .ok l ∧
      ((l.length : Int) ≤ 1000) ∧
      (∀ i ∈ l, strStartsWith "x/" i.key = true) ∧
      (respW.Contents.getD [] = [] → l = []) :=
  ⟨rfl, by decide,
    list_bounded_and_prefixed cfgW okCollab "x/" 1000 respW rfl (by decide)
      (by decide)⟩

/-- C2: `object_exists` returns `true` when the head probe succeeds; when the
probe fails with an error carrying a code, it returns `false` exactly when
that code is `404` or `NoSuchKey`, and for any other code it raises the base
`ObjectsError` (kind `.base`, not a subclass) carrying that code.  The
not-found codes are thus the only collaborator failure absorbed into a
boolean rather than propagated. -/
theorem object_exists_not_found_absorbed (cfg : ObjectsConfig) (s3 : S3Collab)
    (object_key : String) :
    (s3.head_object cfg.bucket object_key = .ok () →
      (object_exists cfg s3 object_key).1 = .ok true) ∧
    (∀ exc ef c, s3.head_object cfg.bucket object_key = .error exc →
      exc.error = some ef → ef.code = some c →
      (((object_exists cfg s3 object_key).1 = .ok false) ↔
        (c = "404" ∨ c = "NoSuchKey")) ∧
      (¬ (c = "404" ∨ c = "NoSuchKey") →
        (object_exists cfg s3 object_key).1 = .error (.objectsError .base
          ("Failed to check existence of '" ++ object_key ++ "': " ++
            ef.message.getD "(no message)") c exc))) := by
  constructor
  · intro h
    simp [object_exists, h]
  · intro exc ef c herr hef hcode
    constructor
    · constructor
      · intro hfalse
        by_contra hne
        simp [object_exists, herr, hef, hcode, hne] at hfalse
      · intro hc
        simp [object_exists, herr, hef, hcode, hc]
    · intro hne
      simp [object_exists, herr, hef, hcode, hne, parse_client_error]

/-- Witness for C2: a succeeding probe yields `true`, and a probe failing
with code `404` yields `false`. -/
theorem object_exists_not_found_absorbed_witness :
    (okCollab.head_object cfgW.bucket "k" = .ok () ∧
      (object_exists cfgW okCollab "k").1 = .ok true) ∧
    ((errCollab excNF).head_object cfgW.bucket "k" = .error excNF ∧
      excNF.error = some ⟨some "404", none⟩ ∧
      (object_exists cfgW (errCollab excNF) "k").1 = .ok false) :=
  ⟨⟨rfl, (object_exists_not_found_absorbed cfgW okCollab "k").1 rfl⟩,
    ⟨rfl, rfl,
      ((object_exists_not_found_absorbed cfgW (errCollab excNF) "k").2 excNF
          ⟨some "404", none⟩ "404" rfl rfl rfl).1.mpr (Or.inl rfl)⟩⟩

/-- C6: when the collaborator's `delete_object` fails with code
`AccessDenied`, `delete` raises the base `ObjectsError` (kind `.base`, not a
subclass) with `code = "AccessDenied"` and a message containing the object
key. -/
theorem delete_access_denied_base_error (cfg : ObjectsConfig) (s3 : S3Collab)
    (object_key : String) (exc : ClientError) (ef : ClientErrorField)
    (herr : s3.delete_object cfg.bucket object_key = .error exc)
    (hef : exc.error = some ef) (hcode : ef.code = some "AccessDenied") :
    ∃ msg, (delete cfg s3 object_key).1 =
        .error (.objectsError .base msg "AccessDenied" exc) ∧
      ∃ a b, msg = a ++ object_key ++ b := by
  refine ⟨"Failed to delete '" ++ object_key ++ "': " ++ ef.message.getD "(no message)",
    ?_, "Failed to delete '", "': " ++ ef.message.getD "(no message)", ?_⟩
  · simp [delete, herr, parse_client_error, hef, hcode]
  · simp [String.append_assoc]

/-- Witness for C6: deleting `a.jpg` against a collaborator failing with
`excAD` (code `AccessDenied`) raises the base error with that code and a
message containing `a.jpg`. -/
theorem delete_access_denied_base_error_witness :
    ((errCollab excAD).delete_object cfgW.bucket "a.jpg" = .error excAD ∧
      excAD.error = some ⟨some "AccessDenied", some "denied"⟩) ∧
    ∃ msg, (delete cfgW (errCollab excAD) "a.jpg").1 =
        .error (.objectsError .base msg "AccessDenied" excAD) ∧
      ∃ a b, msg = a ++ "a.jpg" ++ b :=
  ⟨⟨rfl, rfl⟩,
    delete_access_denied_base_error cfgW (errCollab excAD) "a.jpg" excAD
      ⟨some "AccessDenied", some "denied"⟩ rfl rfl rfl⟩

/-- C8: no public operation mutates the client's `ObjectsConfig` (the
post-state client equals the receiver), and every collaborator request any
operation issues carries the single bucket fixed in that config. -/
theorem config_immutable_single_bucket (client : ObjectsClient)
    (fs : String → Bool) (s3 : S3Collab) (call : ApiCall) :
    (runCall client fs s3 call).2.2 = client ∧
    ∀ r ∈ (runCall client fs s3 call).2.1, r.bucket = client.config.bucket := by
  cases call with
  | upload lp ok ea =>
      refine ⟨rfl, ?_⟩
      intro r hr
      unfold runCall upload at hr
      by_cases hf : fs lp
      · cases h : s3.upload_file lp client.config.bucket
            (pyOrStr ok (basename lp)) (ea.getD []) <;>
          simp [hf, h] at hr <;> simp [hr, S3Req.bucket]
      · simp [hf] at hr
  | list pfx mxk =>
      refine ⟨rfl, ?_⟩
      intro r hr
      unfold runCall list at hr
      cases h : s3.list_objects_v2 client.config.bucket pfx mxk <;>
        simp [h] at hr <;> simp [hr, S3Req.bucket]
  | list_keys pfx =>
      refine ⟨rfl, ?_⟩
      intro r hr
      unfold runCall list_keys list at hr
      cases h : s3.list_objects_v2 client.config.bucket pfx 1000 <;>
        simp [h] at hr <;> simp [hr, S3Req.bucket]
  | get_download_url k ei =>
      refine ⟨rfl, ?_⟩
      intro r hr
      unfold runCall get_download_url at hr
      cases ei with
      | none =>
          cases h : s3.generate_presigned_url "get_object" client.config.bucket k
              client.config.default_expiry <;>
            simp [h] at hr <;> simp [hr, S3Req.bucket]
      | some v =>
          cases h : s3.generate_presigned_url "get_object" client.config.bucket k
              v <;>
            simp [h] at hr <;> simp [hr, S3Req.bucket]
  | delete k =>
      refine ⟨rfl, ?_⟩
      intro r hr
      unfold runCall delete at hr
      cases h : s3.delete_object client.config.bucket k <;>
        simp [h] at hr <;> simp [hr, S3Req.bucket]
  | object_exists k =>
      refine ⟨rfl, ?_⟩
      intro r hr
      unfold runCall object_exists at hr
      cases h : s3.head_object client.config.bucket k with
      | ok u => simp [h] at hr; simp [hr, S3Req.bucket]
      | error exc =>
          cases hexc : exc.error with
          | none => simp [h, hexc] at hr; simp [hr, S3Req.bucket]
          | some ef =>
              cases hc : ef.code with
              | none => simp [h, hexc, hc] at hr; simp [hr, S3Req.bucket]
              | some c =>
                  by_cases hnf : c = "404" ∨ c = "NoSuchKey" <;>
                    simp [h, hexc, hc, hnf] at hr <;> simp [hr, S3Req.bucket]

/-- Witness for C8: dispatching `delete "a.jpg"` on a client over `cfgW`
leaves the client unchanged and its one collaborator request targets the
configured bucket `photos`. -/
theorem config_immutable_single_bucket_witness :
    (runCall ⟨cfgW⟩ fsW okCollab (.delete "a.jpg")).2.2 = ⟨cfgW⟩ ∧
    (S3Req.delete_object "photos" "a.jpg") ∈
      (runCall ⟨cfgW⟩ fsW okCollab (.delete "a.jpg")).2.1 ∧
    (S3Req.delete_object "photos" "a.jpg").bucket = cfgW.bucket :=
  ⟨(config_immutable_single_bucket ⟨cfgW⟩ fsW okCollab (.delete "a.jpg")).1,
    by decide,
    (config_immutable_single_bucket ⟨cfgW⟩ fsW okCollab (.delete "a.jpg")).2
      (S3Req.delete_object "photos" "a.jpg") (by decide)⟩

/-- C10: every failure the wrapper translates goes through
`_parse_client_error`, which substitutes `"Unknown"` for a missing `Code`
and `"(no message)"` for a missing `Message` and never itself fails; each of
`upload`, `list`, `get_download_url`, `delete` and the non-not-found branch
of `object_exists` raises a typed error whose code and composed message are
built verbatim from that pair. -/
theorem translated_error_defaults (cfg : ObjectsConfig) (fs : String → Bool)
    (s3 : S3Collab) (lp pfx object_key : String) (ok : Option String)
    (ea : Option (List (String × String))) (mxk : Int) (exc : ClientError) :
    (exc.error.bind ClientErrorField.code = none →
      (parse_client_error exc).1 = "Unknown") ∧
    (exc.error.bind ClientErrorField.message = none →
      (parse_client_error exc).2 = "(no message)") ∧
    (fs lp = true →
      s3.upload_file lp cfg.bucket (pyOrStr ok (basename lp)) (ea.getD []) =
        .error exc →
      (upload cfg fs s3 lp ok ea).1 = .error (.objectsError .uploadError
        ("Upload failed for '" ++ lp ++ "': " ++ (parse_client_error exc).2)
        (parse_client_error exc).1 exc)) ∧
    (s3.list_objects_v2 cfg.bucket pfx mxk = .error exc →
      (list cfg s3 pfx mxk).1 = .error (.objectsError .listError
        ("Failed to list objects: " ++ (parse_client_error exc).2)
        (parse_client_error exc).1 exc)) ∧
    (s3.generate_presigned_url "get_object" cfg.bucket object_key
        cfg.default_expiry = .error exc →
      (get_download_url cfg s3 object_key none).1 =
        .error (.objectsError .downloadError
          ("Failed to generate URL for '" ++ object_key ++ "': " ++
            (parse_client_error exc).2) (parse_client_error exc).1 exc)) ∧
    (s3.delete_object cfg.bucket object_key = .error exc →
      (delete cfg s3 object_key).1 = .error (.objectsError .base
        ("Failed to delete '" ++ object_key ++ "': " ++ (parse_client_error exc).2)
        (parse_client_error exc).1 exc)) ∧
    (∀ ef c, s3.head_object cfg.bucket object_key = .error exc →
      exc.error = some ef → ef.code = some c → ¬ (c = "404" ∨ c = "NoSuchKey") →
      (object_exists cfg s3 object_key).1 = .error (.objectsError .base
        ("Failed to check existence of '" ++ object_key ++ "': " ++
          (parse_client_error exc).2) (parse_client_error exc).1 exc)) := by
  refine ⟨?_, ?_, ?_, ?_, ?_, ?_, ?_⟩
  · intro h
    cases hexc : exc.error with
    | none => simp [parse_client_error, hexc]
    | some ef =>
        rw [hexc] at h
        simp only [Option.some_bind] at h
        simp [parse_client_error, hexc, h]
  · intro h
    cases hexc : exc.error with
    | none => simp [parse_client_error, hexc]
    | some ef =>
        rw [hexc] at h
        simp only [Option.some_bind] at h
        simp [parse_client_error, hexc, h]
  · intro hfile herr
    simp [upload, hfile, herr]
  · intro herr
    simp [list, herr]
  · intro herr
    simp [get_download_url, herr]
  · intro herr
    simp [delete, herr]
  · intro ef c herr hef hcode hne
    simp [object_exists, herr, hef, hcode, hne, parse_client_error]

/-- Witness for C10: `excBare` (no `Error` entry) parses to
`("Unknown", "(no message)")`, and `delete` against a collaborator failing
with it raises the base error with those defaults composed in. -/
theorem translated_error_defaults_witness :
    excBare.error.bind ClientErrorField.code = none ∧
    excBare.error.bind ClientErrorField.message = none ∧
    (parse_client_error excBare).1 = "Unknown" ∧
    (parse_client_error excBare).2 = "(no message)" ∧
    ((errCollab excBare).delete_object cfgW.bucket "k" = .error excBare ∧
      (delete cfgW (errCollab excBare) "k").1 = .error (.objectsError .base
        ("Failed to delete '" ++ "k" ++ "': " ++ (parse_client_error excBare).2)
        (parse_client_error excBare).1 excBare)) :=
  ⟨rfl, rfl,
    (translated_error_defaults cfgW fsW (errCollab excBare) "lp" "" "k" none none
        0 excBare).1 rfl,
    (translated_error_defaults cfgW fsW (errCollab excBare) "lp" "" "k" none none
        0 excBare).2.1 rfl,
    rfl,
    (translated_error_defaults cfgW fsW (errCollab excBare) "lp" "" "k" none none
        0 excBare).2.2.2.2.2.1 rfl⟩

end AteDmeObst
